import Mathlib

/-!
Verification development for the vsgExamples fragment consisting of
`examples/nodes/vsgpagedlod/GlobeTrackball.cpp` (a globe camera trackball
controller) and `examples/traversals/vsgintersection/Builder.cpp` (a factory
that builds vertex/index buffers and draw commands for primitive meshes,
cached by geometry descriptor).

Shallow embedding conventions:
* `float`/`double` values that only pass through ring operations (the
  Builder geometry, the `ndc` window-coordinate computation) are modelled
  exactly by `ℚ`; values flowing through square roots and trigonometry
  (the trackball camera math) are modelled by `ℝ`.
* Mutating member functions become pure functions from state to state.
* `ref_ptr` object identity is modelled by an allocation counter: every
  `vsg::...::create` call hands out a fresh numeric id, so "the same node"
  is expressible as "the same id".
* Host-library (VSG) helpers whose sources are outside this repository
  (vector/matrix maths, `EllipsoidModel` conversions) are modelled by their
  standard mathematical semantics; each such definition carries a doc
  comment saying so.
-/

namespace Builder

/-- `vsg::vec2` with exact rational components. -/
structure Vec2q where
  x : ℚ
  y : ℚ

/-- `vsg::vec3` with exact rational components. -/
structure Vec3q where
  x : ℚ
  y : ℚ
  z : ℚ
deriving DecidableEq

/-- `vsg::vec4` with exact rational components. -/
structure Vec4q where
  x : ℚ
  y : ℚ
  z : ℚ
  w : ℚ
deriving DecidableEq

instance : Add Vec3q := ⟨fun a b => ⟨a.x + b.x, a.y + b.y, a.z + b.z⟩⟩

instance : Inhabited Vec2q := ⟨⟨0, 0⟩⟩

instance : Inhabited Vec3q := ⟨⟨0, 0, 0⟩⟩

theorem Vec3q.addq_def (a b : Vec3q) : a + b = ⟨a.x + b.x, a.y + b.y, a.z + b.z⟩ := rfl

/-- Modelled from the spec: the geometry descriptor (`GeometryInfo`, declared in
`Builder.h` which is not under `src/`): "position, dimensions, color/texture
reference — used as a cache key for reusing built meshes".  The fields are the
ones `Builder.cpp` reads: `position`, `dimensions`, `color` and the optional
`image`; the header's ordering comparator used by the `std::map` key is
modelled by decidable equality of the descriptor. -/
structure GeometryInfo where
  position : Vec3q
  dimensions : Vec3q
  color : Vec4q
  image : Option ℕ
deriving DecidableEq

/-- Texture data used as the key of `_textureDescriptorSets`: either the
caller-supplied `info.image` or the 2x2 colour image allocated (and cached in
`_colorData`) by `_createTexture`. -/
inductive TexData
  | image (ref : ℕ)
  | colorImage (allocId : ℕ)
deriving DecidableEq

/-- The three `vsg` data arrays bound by `BindVertexBuffers`. -/
structure VertexArrays where
  vertices : List Vec3q
  colors : List Vec3q
  texcoords : List Vec2q

/-- The draw commands `Builder.cpp` adds to a `vsg::Commands` group. -/
inductive GeomCommand
  | bindVertexBuffers (firstBinding : ℕ) (arrays : VertexArrays)
  | bindIndexBuffer (indices : List ℕ)
  | drawIndexed (indexCount instanceCount firstIndex vertexOffset firstInstance : ℕ)
  | draw (vertexCount instanceCount firstVertex firstInstance : ℕ)

/-- The child attached under the `StateGroup` root: a `vsg::Commands` group,
a `vsg::Geometry`, or a `vsg::VertexIndexDraw`, matching the four
`geometryType` cases of `Builder::createQuad`. -/
inductive Child
  | commands (cmds : List GeomCommand)
  | geometry (arrays : VertexArrays) (indices : List ℕ) (cmds : List GeomCommand)
  | vertexIndexDraw (arrays : VertexArrays) (indices : List ℕ) (indexCount instanceCount : ℕ)

/-- The `StateGroup` subgraph a create call returns: its allocation id, the
bound graphics pipeline and texture descriptor references, and the geometry
child. -/
structure Node where
  id : ℕ
  pipeline : Option ℕ
  texture : ℕ
  child : Child

/-- The `GeometryType` enum read by `Builder::createQuad` (declared in the
missing `Builder.h`; the four enumerators appear in the `switch`). -/
inductive GeometryType
  | DRAW_COMMANDS
  | DRAW_INDEXED_COMMANDS
  | GEOMETRY
  | VERTEX_INDEX_DRAW

/-- The Builder's mutable members: the `geometryType` switch, the `_boxes`
subgraph cache, the `_colorData` and `_textureDescriptorSets` caches, the
cached `_bindGraphicsPipeline`, and the allocation counter modelling
`ref_ptr` identity of created objects. -/
structure BuilderState where
  geometryType : GeometryType
  boxes : List (GeometryInfo × Node)
  colorData : List (Vec4q × ℕ)
  textureDescriptorSets : List (TexData × ℕ)
  bindGraphicsPipeline : Option ℕ
  nextId : ℕ

/-- Lookup in an association list, modelling `std::map::find` (and the
truthiness test of a default-constructed null `ref_ptr` slot: an absent or
null entry are both `none`). -/
def lookupAssoc {α β : Type} [DecidableEq α] : List (α × β) → α → Option β
  | [], _ => none
  | (k, v) :: rest, key => if key = k then some v else lookupAssoc rest key

/-- `Builder::_createTexture`: reuse `info.image` if given, otherwise reuse or
allocate the 2x2 colour image cached in `_colorData`; then reuse or allocate
the `BindDescriptorSets` cached in `_textureDescriptorSets`.  Returns the
`BindDescriptorSets` id. -/
def createTexture (s : BuilderState) (info : GeometryInfo) : ℕ × BuilderState :=
  let td : TexData × BuilderState :=
    match info.image with
    | some img => (.image img, s)
    | none =>
      match lookupAssoc s.colorData info.color with
      | some allocId => (.colorImage allocId, s)
      | none =>
        (.colorImage s.nextId,
          { s with colorData := (info.color, s.nextId) :: s.colorData, nextId := s.nextId + 1 })
  match lookupAssoc td.2.textureDescriptorSets td.1 with
  | some bds => (bds, td.2)
  | none =>
    (td.2.nextId,
      { td.2 with
        textureDescriptorSets := (td.1, td.2.nextId) :: td.2.textureDescriptorSets,
        nextId := td.2.nextId + 1 })

/-- `Builder::_createGraphicsPipeline`: return the cached
`_bindGraphicsPipeline` if present, otherwise build a new one and cache it.
Reading the SPIR-V shaders from disk is modelled as succeeding (the failure
path returns a null pipeline and is input/output behaviour outside the
embedding). -/
def createGraphicsPipeline (s : BuilderState) : Option ℕ × BuilderState :=
  match s.bindGraphicsPipeline with
  | some p => (some p, s)
  | none => (some s.nextId, { s with bindGraphicsPipeline := some s.nextId, nextId := s.nextId + 1 })

/-- `v000` of `Builder::createBox`. -/
def v000 (info : GeometryInfo) : Vec3q := info.position

/-- `v100` of `Builder::createBox`. -/
def v100 (info : GeometryInfo) : Vec3q := info.position + ⟨info.dimensions.x, 0, 0⟩

/-- `v110` of `Builder::createBox`. -/
def v110 (info : GeometryInfo) : Vec3q :=
  info.position + ⟨info.dimensions.x, info.dimensions.y, 0⟩

/-- `v010` of `Builder::createBox`. -/
def v010 (info : GeometryInfo) : Vec3q := info.position + ⟨0, info.dimensions.y, 0⟩

/-- `v001` of `Builder::createBox`. -/
def v001 (info : GeometryInfo) : Vec3q := info.position + ⟨0, 0, info.dimensions.z⟩

/-- `v101` of `Builder::createBox`. -/
def v101 (info : GeometryInfo) : Vec3q :=
  info.position + ⟨info.dimensions.x, 0, info.dimensions.z⟩

/-- `v111` of `Builder::createBox`. -/
def v111 (info : GeometryInfo) : Vec3q :=
  info.position + ⟨info.dimensions.x, info.dimensions.y, info.dimensions.z⟩

/-- `v011` of `Builder::createBox`. -/
def v011 (info : GeometryInfo) : Vec3q :=
  info.position + ⟨0, info.dimensions.y, info.dimensions.z⟩

/-- The 24-entry vertex array of `Builder::createBox` (four vertices per face
for six faces). -/
def boxVertices (info : GeometryInfo) : List Vec3q :=
  [v000 info, v100 info, v101 info, v001 info,
   v100 info, v110 info, v111 info, v101 info,
   v110 info, v010 info, v011 info, v111 info,
   v010 info, v000 info, v001 info, v011 info,
   v010 info, v110 info, v100 info, v000 info,
   v001 info, v101 info, v111 info, v011 info]

/-- The colour array of `Builder::createBox`: `vertices->size()` copies of
white. -/
def boxColors : List Vec3q := List.replicate 24 ⟨1, 1, 1⟩

/-- The texture-coordinate array of `Builder::createBox`. -/
def boxTexcoords : List Vec2q :=
  [⟨0, 0⟩, ⟨1, 0⟩, ⟨1, 1⟩, ⟨0, 1⟩,
   ⟨0, 0⟩, ⟨1, 0⟩, ⟨1, 1⟩, ⟨0, 1⟩,
   ⟨0, 0⟩, ⟨1, 0⟩, ⟨1, 1⟩, ⟨0, 1⟩,
   ⟨0, 0⟩, ⟨1, 0⟩, ⟨1, 1⟩, ⟨0, 1⟩,
   ⟨0, 0⟩, ⟨1, 0⟩, ⟨1, 1⟩, ⟨0, 1⟩,
   ⟨0, 0⟩, ⟨1, 0⟩, ⟨1, 1⟩, ⟨0, 1⟩]

/-- The 36-entry index array of `Builder::createBox`. -/
def boxIndices : List ℕ :=
  [0, 1, 2, 0, 2, 3,
   4, 5, 6, 4, 6, 7,
   8, 9, 10, 8, 10, 11,
   12, 13, 14, 12, 14, 15,
   16, 17, 18, 16, 18, 19,
   20, 21, 22, 20, 22, 23]

/-- The build branch of `Builder::createBox`: create the `StateGroup`, bind
pipeline and texture, and attach the `Commands` group holding
`BindVertexBuffers`, `BindIndexBuffer` and one
`DrawIndexed(indices->size(), 1, 0, 0, 0)`. -/
def buildBoxNode (s : BuilderState) (info : GeometryInfo) : Node × BuilderState :=
  let p := createGraphicsPipeline s
  let t := createTexture p.2 info
  ({ id := t.2.nextId, pipeline := p.1, texture := t.1,
     child := .commands
       [.bindVertexBuffers 0 ⟨boxVertices info, boxColors, boxTexcoords⟩,
        .bindIndexBuffer boxIndices,
        .drawIndexed boxIndices.length 1 0 0 0] },
   { t.2 with nextId := t.2.nextId + 1 })

/-- `Builder::createBox`: if `_boxes[info]` holds a subgraph return it,
otherwise build the box mesh, store it in `_boxes[info]` and return it. -/
def createBox (s : BuilderState) (info : GeometryInfo) : Node × BuilderState :=
  match lookupAssoc s.boxes info with
  | some subgraph => (subgraph, s)
  | none =>
    let b := buildBoxNode s info
    (b.1, { b.2 with boxes := (info, b.1) :: b.2.boxes })

/-- `Builder::createSphere`: prints a trace and returns `createBox(info)`. -/
def createSphere (s : BuilderState) (info : GeometryInfo) : Node × BuilderState :=
  createBox s info

/-- `Builder::createCapsule`: returns `createBox(info)`. -/
def createCapsule (s : BuilderState) (info : GeometryInfo) : Node × BuilderState :=
  createBox s info

/-- `Builder::createCone`: returns `createBox(info)`. -/
def createCone (s : BuilderState) (info : GeometryInfo) : Node × BuilderState :=
  createBox s info

/-- `Builder::createCylinder`: returns `createBox(info)`. -/
def createCylinder (s : BuilderState) (info : GeometryInfo) : Node × BuilderState :=
  createBox s info

/-- The 4-entry vertex array of `Builder::createQuad`. -/
def quadVertices (info : GeometryInfo) : List Vec3q :=
  [info.position,
   info.position + ⟨info.dimensions.x, 0, 0⟩,
   info.position + ⟨info.dimensions.x, info.dimensions.y, 0⟩,
   info.position + ⟨0, info.dimensions.y, 0⟩]

/-- The colour array of `Builder::createQuad`. -/
def quadColors : List Vec3q := [⟨1, 0, 0⟩, ⟨0, 1, 0⟩, ⟨0, 0, 1⟩, ⟨1, 1, 1⟩]

/-- The texture-coordinate array of `Builder::createQuad`. -/
def quadTexcoords : List Vec2q := [⟨0, 0⟩, ⟨1, 0⟩, ⟨1, 1⟩, ⟨0, 1⟩]

/-- The index array of `Builder::createQuad`. -/
def quadIndices : List ℕ := [0, 1, 2, 2, 3, 0]

/-- The `expanded_vertices` array of the `DRAW_COMMANDS` path:
`expanded_vertices[i] = vertices[indices[i]]`. -/
def expandedVertices (info : GeometryInfo) : List Vec3q :=
  quadIndices.map fun i => (quadVertices info).getD i default

/-- The `expanded_colors` array of the `DRAW_COMMANDS` path. -/
def expandedColors : List Vec3q :=
  quadIndices.map fun i => quadColors.getD i default

/-- The `expanded_texcoords` array of the `DRAW_COMMANDS` path. -/
def expandedTexcoords : List Vec2q :=
  quadIndices.map fun i => quadTexcoords.getD i default

/-- The geometry child built by the `switch (geometryType)` of
`Builder::createQuad`. -/
def quadChild (gt : GeometryType) (info : GeometryInfo) : Child :=
  match gt with
  | .DRAW_COMMANDS =>
    .commands
      [.bindVertexBuffers 0 ⟨expandedVertices info, expandedColors, expandedTexcoords⟩,
       .draw (expandedVertices info).length 1 0 0]
  | .DRAW_INDEXED_COMMANDS =>
    .commands
      [.bindVertexBuffers 0 ⟨quadVertices info, quadColors, quadTexcoords⟩,
       .bindIndexBuffer quadIndices,
       .drawIndexed quadIndices.length 1 0 0 0]
  | .GEOMETRY =>
    .geometry ⟨quadVertices info, quadColors, quadTexcoords⟩ quadIndices
      [.drawIndexed quadIndices.length 1 0 0 0]
  | .VERTEX_INDEX_DRAW =>
    .vertexIndexDraw ⟨quadVertices info, quadColors, quadTexcoords⟩ quadIndices
      quadIndices.length 1

/-- `Builder::createQuad`: looks a subgraph up in the `_boxes` cache (the same
map `createBox` uses) and returns it when the slot holds one; otherwise builds
the quad subgraph and returns it.  Note: unlike `createBox`, the source never
assigns the freshly built scenegraph into the `_boxes` slot (`subgraph =
scenegraph` is missing), so the build result is not cached. -/
def createQuad (s : BuilderState) (info : GeometryInfo) : Node × BuilderState :=
  match lookupAssoc s.boxes info with
  | some subgraph => (subgraph, s)
  | none =>
    let p := createGraphicsPipeline s
    let t := createTexture p.2 info
    ({ id := t.2.nextId, pipeline := p.1, texture := t.1,
       child := quadChild s.geometryType info },
     { t.2 with nextId := t.2.nextId + 1 })

/-- One of the eight corners of the axis-aligned box at `info.position` with
extents `info.dimensions`: each Boolean selects whether the corresponding
dimension extent is added.  This is the claim-side, source-independent
description of a box corner. -/
def corner (info : GeometryInfo) (a b c : Bool) : Vec3q :=
  ⟨info.position.x + (if a then info.dimensions.x else 0),
   info.position.y + (if b then info.dimensions.y else 0),
   info.position.z + (if c then info.dimensions.z else 0)⟩

/-- The first `BindVertexBuffers` of a command list, modelling the vertex
bindings in effect when a draw command executes. -/
def firstArrays : List GeomCommand → Option VertexArrays
  | [] => none
  | .bindVertexBuffers _ a :: _ => some a
  | _ :: rest => firstArrays rest

/-- The first `BindIndexBuffer` of a command list, modelling the index buffer
in effect when an indexed draw executes. -/
def firstIndices : List GeomCommand → Option (List ℕ)
  | [] => none
  | .bindIndexBuffer idx :: _ => some idx
  | _ :: rest => firstIndices rest

/-- The stream of per-vertex attribute values a child's draw commands feed to
the vertex stage, computed for one of the bound arrays (selected by `sel`):
`vkCmdDraw(n, _, first, _)` reads `n` consecutive entries starting at `first`,
`vkCmdDrawIndexed(n, _, firstIndex, vertexOffset, _)` reads `n` indices and
fetches `array[index + vertexOffset]` for each. -/
def gather {α : Type} (sel : VertexArrays → List α) (dflt : α) : Child → List α
  | .commands cmds =>
    match firstArrays cmds with
    | none => []
    | some a =>
      (cmds.map fun cmd =>
        match cmd with
        | .draw n _ f _ => ((sel a).drop f).take n
        | .drawIndexed n _ fi vo _ =>
          match firstIndices cmds with
          | some idx => ((idx.drop fi).take n).map fun ix => (sel a).getD (ix + vo) dflt
          | none => []
        | _ => []).flatten
  | .geometry a idx cmds =>
    (cmds.map fun cmd =>
      match cmd with
      | .draw n _ f _ => ((sel a).drop f).take n
      | .drawIndexed n _ fi vo _ =>
        ((idx.drop fi).take n).map fun ix => (sel a).getD (ix + vo) dflt
      | _ => []).flatten
  | .vertexIndexDraw a idx n _ => (idx.take n).map fun ix => (sel a).getD ix dflt

/-- The sequence of positions a child's draw commands emit. -/
def vertexStream (c : Child) : List Vec3q := gather (fun a => a.vertices) default c

/-- The sequence of colours a child's draw commands emit. -/
def colorStream (c : Child) : List Vec3q := gather (fun a => a.colors) default c

/-- The sequence of texture coordinates a child's draw commands emit. -/
def texcoordStream (c : Child) : List Vec2q := gather (fun a => a.texcoords) default c

/-- The index counts of the `DrawIndexed` commands reachable in a child, in
order. -/
def drawIndexedCounts (c : Child) : List ℕ :=
  let ofCmds : List GeomCommand → List ℕ := fun cmds =>
    (cmds.map fun cmd =>
      match cmd with
      | .drawIndexed n _ _ _ _ => [n]
      | _ => []).flatten
  match c with
  | .commands cmds => ofCmds cmds
  | .geometry _ _ cmds => ofCmds cmds
  | .vertexIndexDraw _ _ n _ => [n]

/-- A fresh Builder right after `setup`, with empty caches; the geometry type
enumerates the quad variants. -/
def freshState (gt : GeometryType) : BuilderState :=
  { geometryType := gt, boxes := [], colorData := [], textureDescriptorSets := [],
    bindGraphicsPipeline := none, nextId := 0 }

/-- A sample geometry descriptor used for the concrete counterexamples and
witnesses. -/
def sampleInfo : GeometryInfo :=
  { position := ⟨0, 0, 0⟩, dimensions := ⟨1, 1, 1⟩, color := ⟨1, 1, 1, 1⟩, image := none }

end Builder

namespace VsgMath

/-- Modelled from the spec: the host toolkit's `vsg::dvec3` (3D double
vector), here with exact real components. -/
structure Vec3 where
  x : ℝ
  y : ℝ
  z : ℝ

namespace Vec3

@[ext] theorem extensional {a b : Vec3} (hx : a.x = b.x) (hy : a.y = b.y) (hz : a.z = b.z) :
    a = b := by
  cases a; cases b; simp_all

end Vec3

instance : Add Vec3 := ⟨fun a b => ⟨a.x + b.x, a.y + b.y, a.z + b.z⟩⟩

instance : Sub Vec3 := ⟨fun a b => ⟨a.x - b.x, a.y - b.y, a.z - b.z⟩⟩

instance : Neg Vec3 := ⟨fun a => ⟨-a.x, -a.y, -a.z⟩⟩

instance : Zero Vec3 := ⟨⟨0, 0, 0⟩⟩

theorem Vec3.add_def (a b : Vec3) : a + b = ⟨a.x + b.x, a.y + b.y, a.z + b.z⟩ := rfl

theorem Vec3.sub_def (a b : Vec3) : a - b = ⟨a.x - b.x, a.y - b.y, a.z - b.z⟩ := rfl

theorem Vec3.neg_def (a : Vec3) : -a = ⟨-a.x, -a.y, -a.z⟩ := rfl

theorem Vec3.zero_def : (0 : Vec3) = ⟨0, 0, 0⟩ := rfl

/-- Modelled from the spec: `vsg` scalar-vector multiplication. -/
def smul (t : ℝ) (v : Vec3) : Vec3 := ⟨t * v.x, t * v.y, t * v.z⟩

/-- Modelled from the spec: `vsg::dot`. -/
def dot (a b : Vec3) : ℝ := a.x * b.x + a.y * b.y + a.z * b.z

/-- Modelled from the spec: `vsg::cross`. -/
def cross (a b : Vec3) : Vec3 :=
  ⟨a.y * b.z - a.z * b.y, a.z * b.x - a.x * b.z, a.x * b.y - a.y * b.x⟩

/-- The squared euclidean norm. -/
def lenSq (v : Vec3) : ℝ := dot v v

/-- Modelled from the spec: `vsg::length`. -/
noncomputable def length (v : Vec3) : ℝ := Real.sqrt (lenSq v)

/-- Modelled from the spec: `vsg::normalize`, `v / length(v)` componentwise. -/
noncomputable def normalize (v : Vec3) : Vec3 := smul (1 / length v) v

/-- 4x4 double matrix (`vsg::dmat4`).  VSG stores matrices column-major; the
embedding uses the mathematical row-major presentation of the same linear
map, so `m i j` is row `i`, column `j` of the matrix that acts on column
vectors from the left. -/
abbrev Mat4 := Matrix (Fin 4) (Fin 4) ℝ

/-- Modelled from the spec: `vsg::translate`. -/
def translate (t : Vec3) : Mat4 :=
  !![1, 0, 0, t.x;
     0, 1, 0, t.y;
     0, 0, 1, t.z;
     0, 0, 0, 1]

/-- Modelled from the spec: `vsg::rotate(angle, axis)`, the standard
axis-angle rotation matrix. -/
noncomputable def rotateMat (angle : ℝ) (a : Vec3) : Mat4 :=
  let c := Real.cos angle
  let s := Real.sin angle
  let omc := 1 - c
  !![a.x * a.x * omc + c, a.x * a.y * omc - a.z * s, a.x * a.z * omc + a.y * s, 0;
     a.y * a.x * omc + a.z * s, a.y * a.y * omc + c, a.y * a.z * omc - a.x * s, 0;
     a.x * a.z * omc - a.y * s, a.y * a.z * omc + a.x * s, a.z * a.z * omc + c, 0;
     0, 0, 0, 1]

/-- The rotation block of the view matrix built by `vsg::lookAt`: rows
`side`, `u` and `-forward`. -/
def basisMat (side u f : Vec3) : Mat4 :=
  !![side.x, side.y, side.z, 0;
     u.x, u.y, u.z, 0;
     -f.x, -f.y, -f.z, 0;
     0, 0, 0, 1]

/-- Modelled from the spec: `vsg::lookAt(eye, center, up)`: an orthonormal
camera basis (forward towards `center`, `side` and `u` spanning the image
plane) composed with the translation taking `eye` to the origin. -/
noncomputable def lookAtMat (eye center up : Vec3) : Mat4 :=
  let f := normalize (center - eye)
  let upn := normalize up
  let s := normalize (cross f upn)
  let u := normalize (cross s f)
  basisMat s u f * translate (-eye)

/-- Modelled from the spec: `vsg::inverse`, the 4x4 matrix inverse the host
library computes by cofactor expansion; here Mathlib's adjugate-based matrix
inverse, which agrees with it on invertible matrices. -/
noncomputable def inverseM (m : Mat4) : Mat4 := m⁻¹

/-- Application of a `dmat4` to a `dvec3`, `matrix * vector`: the affine
action on homogeneous coordinate `(v, 1)`.  All matrices the trackball
applies to points are affine (last row `0 0 0 1`), so the homogeneous `w` of
the result is `1`. -/
def tp (m : Mat4) (v : Vec3) : Vec3 :=
  ⟨m 0 0 * v.x + m 0 1 * v.y + m 0 2 * v.z + m 0 3,
   m 1 0 * v.x + m 1 1 * v.y + m 1 2 * v.z + m 1 3,
   m 2 0 * v.x + m 2 1 * v.y + m 2 2 * v.z + m 2 3⟩

/-- A matrix whose last row is `0 0 0 1`, so that its action on points is
affine. -/
def IsAffine (m : Mat4) : Prop := m 3 0 = 0 ∧ m 3 1 = 0 ∧ m 3 2 = 0 ∧ m 3 3 = 1

/-- Squared distance between two points. -/
def distSq (p q : Vec3) : ℝ := lenSq (p - q)

/-- A matrix whose action on points preserves (squared) distances. -/
def Rigid (m : Mat4) : Prop := ∀ p q : Vec3, distSq (tp m p) (tp m q) = distSq p q

end VsgMath

namespace GlobeTrackball

open VsgMath

/-- `VkExtent2D` of the camera's render area (unsigned 32-bit extents). -/
structure Extent2D where
  width : ℕ
  height : ℕ

/-- `VkOffset2D` of the camera's render area (signed 32-bit offsets). -/
structure Offset2D where
  x : ℤ
  y : ℤ

/-- `VkRect2D renderArea` returned by `_camera->getRenderArea()`. -/
structure RenderArea where
  offset : Offset2D
  extent : Extent2D

/-- The pointer coordinates of a `vsg::PointerEvent`. -/
structure PointerEventData where
  x : ℤ
  y : ℤ

/-- `GlobeTrackball::ndc`: non-dimensional window coordinates of an event.
The per-component divisions are guarded by `width > 0` / `height > 0`; the
`aspectRatio = width / height` division on the first line is not guarded
(rational division by zero is the junk value `0` here, where IEEE doubles
produce an infinity or NaN). -/
def ndc (renderArea : RenderArea) (event : PointerEventData) : ℚ × ℚ :=
  let aspectRatio : ℚ := (renderArea.extent.width : ℚ) / (renderArea.extent.height : ℚ)
  (if 0 < renderArea.extent.width then
      (((event.x - renderArea.offset.x : ℤ) : ℚ) / (renderArea.extent.width : ℚ) * 2 - 1) *
        aspectRatio
   else 0,
   if 0 < renderArea.extent.height then
      ((event.y - renderArea.offset.y : ℤ) : ℚ) / (renderArea.extent.height : ℚ) * 2 - 1
   else 0)

/-- Division that records a division by zero instead of returning a junk
value. -/
def safeDiv (a b : ℚ) : Option ℚ := if b = 0 then none else some (a / b)

/-- `GlobeTrackball::ndc` with every division the source performs tracked:
the `aspectRatio` division is executed unconditionally before the guarded
component expressions, and each guarded component divides only when its
guard holds.  `none` means the function performed a division by zero. -/
def ndcChecked (renderArea : RenderArea) (event : PointerEventData) : Option (ℚ × ℚ) :=
  match safeDiv (renderArea.extent.width : ℚ) (renderArea.extent.height : ℚ) with
  | none => none
  | some aspectRatio =>
    let xcomp : Option ℚ :=
      if 0 < renderArea.extent.width then
        (safeDiv (((event.x - renderArea.offset.x : ℤ) : ℚ)) (renderArea.extent.width : ℚ)).map
          fun q => (q * 2 - 1) * aspectRatio
      else some 0
    let ycomp : Option ℚ :=
      if 0 < renderArea.extent.height then
        (safeDiv (((event.y - renderArea.offset.y : ℤ) : ℚ)) (renderArea.extent.height : ℚ)).map
          fun q => q * 2 - 1
      else some 0
    match xcomp, ycomp with
    | some a, some b => some (a, b)
    | _, _ => none

/-- The camera view state `vsg::LookAt`: eye position, look-at center and up
vector in Earth-centered world coordinates. -/
structure LookAt where
  eye : Vec3
  center : Vec3
  up : Vec3

/-- Modelled from the spec: the "Ellipsoid model: read-only geometric
reference used to convert between Cartesian and geodetic coordinates and to
clamp camera position above the surface" (`vsg::EllipsoidModel`, host
library).  `toLLA` is `convertECEFToLatLongAltitude`, `toECEF` is
`convertLatLongAltitudeToECEF`; the geodetic triple is `(latitude,
longitude, altitude)` with the altitude in the `z` component, and
converting a geodetic location to ECEF and back yields the same altitude. -/
structure EllipsoidModel where
  toLLA : Vec3 → Vec3
  toECEF : Vec3 → Vec3
  radiusEquator : ℝ
  alt_roundtrip : ∀ l : Vec3, (toLLA (toECEF l)).z = l.z

/-- `GlobeTrackball::clampToGlobe`: with no ellipsoid model, return at once
leaving the `LookAt` unchanged.  Otherwise intersect the view ray with the
surface, move the look-at center to that location clamped to altitude `0`,
and if the eye's altitude is below the minimum altitude `1.0`, raise the eye
to altitude exactly `1.0`. -/
noncomputable def clampToGlobe (em? : Option EllipsoidModel) (la : LookAt) : LookAt :=
  match em? with
  | none => la
  | some em =>
    let location_center := em.toLLA la.center
    let location_eye := em.toLLA la.eye
    let ratio := location_eye.z / (location_eye.z - location_center.z)
    let location := em.toLLA (smul ratio la.center + smul (1 - ratio) la.eye)
    let ecef := em.toECEF ⟨location.x, location.y, 0⟩
    let la2 := { la with center := ecef }
    if location_eye.z < 1 then
      { la2 with eye := em.toECEF ⟨location_eye.x, location_eye.y, 1⟩ }
    else la2

/-- The transformation part of `GlobeTrackball::rotate(angle, axis)`, before
the final `clampToGlobe()`: the axis-angle rotation about the look-at center
conjugated through the view matrix, applied to up (renormalized from the
transported eye and eye+up points), center and eye. -/
noncomputable def rotateTransformed (la : LookAt) (angle : ℝ) (axis : Vec3) : LookAt :=
  let rotation := rotateMat angle axis
  let lv := lookAtMat la.eye la.center la.up
  let centerEyeSpace := tp lv la.center
  let matrix := inverseM lv * translate centerEyeSpace * rotation *
    translate (-centerEyeSpace) * lv
  { up := normalize (tp matrix (la.eye + la.up) - tp matrix la.eye),
    center := tp matrix la.center,
    eye := tp matrix la.eye }

/-- `GlobeTrackball::rotate(angle, axis)`. -/
noncomputable def rotate (em? : Option EllipsoidModel) (la : LookAt) (angle : ℝ)
    (axis : Vec3) : LookAt :=
  clampToGlobe em? (rotateTransformed la angle axis)

/-- `GlobeTrackball::zoom(ratio)`: move the eye along the look vector, then
clamp to the globe. -/
noncomputable def zoom (em? : Option EllipsoidModel) (la : LookAt) (ratio : ℝ) : LookAt :=
  let lookVector := la.center - la.eye
  clampToGlobe em? { la with eye := la.eye + smul ratio lookVector }

/-- `GlobeTrackball::pan(delta)`.  With an ellipsoid model: rotate the camera
about the globe centre by the angle subtended by the pan motion, then clamp
to the globe — unless that angle is zero, in which case nothing changes.
Without an ellipsoid model: translate eye and center by the same in-plane
vector. -/
noncomputable def pan (em? : Option EllipsoidModel) (la : LookAt) (delta : ℝ × ℝ) : LookAt :=
  let lookVector := la.center - la.eye
  let lookNormal := normalize lookVector
  let upNormal := la.up
  let sideNormal := cross lookNormal upNormal
  let distance := length lookVector * (3 / 10)
  match em? with
  | some em =>
    let globeNormal := normalize la.center
    let scale := distance
    let m := smul (-(scale * delta.2)) upNormal + smul (scale * delta.1) sideNormal
    let v := m + smul (dot m globeNormal) lookNormal
    let angle := length v / em.radiusEquator
    if angle = 0 then la
    else
      let n := normalize (la.center + v)
      let axis := normalize (cross globeNormal n)
      let matrix := rotateMat (-angle) axis
      clampToGlobe em?
        { up := normalize (tp matrix (la.eye + la.up) - tp matrix la.eye),
          center := tp matrix la.center,
          eye := tp matrix la.eye }
  | none =>
    let translation := smul (-delta.1 * distance) sideNormal + smul (delta.2 * distance) upNormal
    { la with eye := la.eye + translation, center := la.center + translation }

/-- The camera's view matrix: either a `vsg::LookAt` (the `dynamic_cast` in
the source succeeds) or some other `ViewMatrix` subclass (it fails). -/
inductive ViewMatrix
  | lookAtVM (la : LookAt)
  | otherVM

/-- The part of `vsg::Camera` the trackball reads and writes through
`getViewMatrix()`. -/
structure Camera where
  viewMatrix : ViewMatrix

/-- The `GlobeTrackball` state for the keyboard-home behaviour: the attached
camera (whose `LookAt` the trackball aliases and mutates), the home `LookAt`
copy saved by the constructor, the configured home key and the
last-pointer-event flag. -/
structure Trackball where
  camera : Camera
  homeLookAt : Option LookAt
  homeKey : ℤ
  lastPointerEventWithinRenderArea : Bool

/-- Modelled from the spec: the default-constructed `vsg::LookAt` the
constructor falls back to when the camera's view matrix is not a `LookAt`. -/
noncomputable def defaultLookAt : LookAt := ⟨⟨0, 0, 0⟩, ⟨0, 0, -1⟩, ⟨0, 1, 0⟩⟩

/-- Modelled from the spec: the configured home key `_homeKey` (declared with
its default in the missing `GlobeTrackball.h`). -/
def homeKeyDefault : ℤ := 32

/-- The `GlobeTrackball` constructor: take the camera's `LookAt` (or a fresh
default one when the view matrix is not a `LookAt`), clamp it to the globe,
and save a copy of the clamped eye/center/up as the home `LookAt`.  When the
camera's view matrix is a `LookAt`, the clamp mutates that aliased object,
so the camera's view matrix becomes the clamped `LookAt`. -/
noncomputable def mkGlobeTrackball (camera : Camera) (em? : Option EllipsoidModel) : Trackball :=
  match camera.viewMatrix with
  | .lookAtVM la =>
    let la1 := clampToGlobe em? la
    { camera := { viewMatrix := .lookAtVM la1 },
      homeLookAt := some la1,
      homeKey := homeKeyDefault,
      lastPointerEventWithinRenderArea := false }
  | .otherVM =>
    { camera := camera,
      homeLookAt := some (clampToGlobe em? defaultLookAt),
      homeKey := homeKeyDefault,
      lastPointerEventWithinRenderArea := false }

/-- The fields of `vsg::KeyPressEvent` the handler reads and writes. -/
structure KeyPressEvent where
  keyBase : ℤ
  handled : Bool

/-- `GlobeTrackball::apply(KeyPressEvent&)`: if the event is already handled
or the last pointer event was outside the render area, do nothing.  If the
key is the home key, mark the event handled, and when the camera's view
matrix is a `LookAt` and a home `LookAt` was saved, restore its eye, center
and up from the home copy. -/
noncomputable def applyKeyPress (tb : Trackball) (e : KeyPressEvent) : KeyPressEvent × Trackball :=
  if e.handled || !tb.lastPointerEventWithinRenderArea then (e, tb)
  else if e.keyBase = tb.homeKey then
    match tb.camera.viewMatrix, tb.homeLookAt with
    | .lookAtVM _, some home =>
      ({ e with handled := true }, { tb with camera := { viewMatrix := .lookAtVM home } })
    | _, _ => ({ e with handled := true }, tb)
  else (e, tb)

/-- The clamping invariant of the spec: the look-at center sits on the
surface (altitude `0`) and the eye is at or above the minimum altitude
`1.0`. -/
def aboveGlobe (em : EllipsoidModel) (la : LookAt) : Prop :=
  (em.toLLA la.center).z = 0 ∧ 1 ≤ (em.toLLA la.eye).z

/-- A concrete ellipsoid model for witnesses: the identity conversions (a
coordinate chart in which ECEF and geodetic coordinates agree), radius 1. -/
noncomputable def flatModel : EllipsoidModel :=
  { toLLA := fun p => p, toECEF := fun l => l, radiusEquator := 1,
    alt_roundtrip := fun _ => rfl }

/-- A concrete camera state for witnesses. -/
noncomputable def sampleLookAt : LookAt := ⟨⟨0, 0, 2⟩, ⟨0, 0, 0⟩, ⟨0, 1, 0⟩⟩

/-- A concrete camera for witnesses, whose view matrix is a `LookAt`. -/
noncomputable def sampleCamera : Camera := ⟨.lookAtVM sampleLookAt⟩

/-- A trackball constructed on `sampleCamera` whose last pointer event was
within the render area. -/
noncomputable def sampleTrackball : Trackball :=
  { mkGlobeTrackball sampleCamera none with lastPointerEventWithinRenderArea := true }

/-- An unhandled key press of the home key. -/
noncomputable def sampleKeyPress : KeyPressEvent := ⟨homeKeyDefault, false⟩

/-- A concrete unit rotation axis for witnesses. -/
noncomputable def sampleAxis : VsgMath.Vec3 := ⟨0, 0, 1⟩

end GlobeTrackball

/-! ### Vector and matrix lemmas for the trackball geometry -/

namespace VsgMath

open Matrix

theorem smul_def (t : ℝ) (v : Vec3) : smul t v = ⟨t * v.x, t * v.y, t * v.z⟩ := rfl

theorem dot_comm (a b : Vec3) : dot a b = dot b a := by
  simp only [dot]; ring

theorem dot_smul_left (t : ℝ) (a b : Vec3) : dot (smul t a) b = t * dot a b := by
  simp only [dot, smul]; ring

theorem lenSq_smul (t : ℝ) (v : Vec3) : lenSq (smul t v) = t ^ 2 * lenSq v := by
  simp only [lenSq, dot, smul]; ring

theorem lenSq_nonneg (v : Vec3) : 0 ≤ lenSq v := by
  simp only [lenSq, dot]
  nlinarith [mul_self_nonneg v.x, mul_self_nonneg v.y, mul_self_nonneg v.z]

theorem lenSq_mk (A B C : ℝ) : lenSq ⟨A, B, C⟩ = A ^ 2 + B ^ 2 + C ^ 2 := by
  simp only [lenSq, dot]; ring

theorem dot_cross_left (a b : Vec3) : dot (cross a b) a = 0 := by
  simp only [dot, cross]; ring

theorem dot_cross_right (a b : Vec3) : dot (cross a b) b = 0 := by
  simp only [dot, cross]; ring

theorem lenSq_cross (a b : Vec3) : lenSq (cross a b) = lenSq a * lenSq b - dot a b ^ 2 := by
  simp only [lenSq, dot, cross]; ring

theorem length_sq_eq (v : Vec3) : length v ^ 2 = lenSq v :=
  Real.sq_sqrt (lenSq_nonneg v)

theorem length_pos_of_lenSq_ne_zero {v : Vec3} (h : lenSq v ≠ 0) : 0 < length v := by
  have h0 : 0 < lenSq v := lt_of_le_of_ne (lenSq_nonneg v) (Ne.symm h)
  exact Real.sqrt_pos.mpr h0

theorem lenSq_normalize {v : Vec3} (h : lenSq v ≠ 0) : lenSq (normalize v) = 1 := by
  have hl : 0 < length v := length_pos_of_lenSq_ne_zero h
  rw [normalize, lenSq_smul]
  rw [div_pow, one_pow, length_sq_eq]
  field_simp

theorem length_of_lenSq_one {v : Vec3} (h : lenSq v = 1) : length v = 1 := by
  rw [length, h, Real.sqrt_one]

theorem length_normalize {v : Vec3} (h : lenSq v ≠ 0) : length (normalize v) = 1 :=
  length_of_lenSq_one (lenSq_normalize h)

theorem normalize_eq_self_of_lenSq_one {v : Vec3} (h : lenSq v = 1) : normalize v = v := by
  rw [normalize, length_of_lenSq_one h]
  ext <;> simp [smul]

theorem dot_normalize_self {v : Vec3} (h : lenSq v ≠ 0) :
    dot (normalize v) (normalize v) = 1 :=
  lenSq_normalize h

/-- `dvec3` application distributes over matrix product when the right factor
is affine. -/
theorem tp_mul (A B : Mat4) (hB : IsAffine B) (v : Vec3) :
    tp (A * B) v = tp A (tp B v) := by
  obtain ⟨h0, h1, h2, h3⟩ := hB
  ext <;>
    simp only [tp, Matrix.mul_apply, Fin.sum_univ_four, h0, h1, h2, h3] <;> ring

theorem isAffine_mul {A B : Mat4} (hA : IsAffine A) (hB : IsAffine B) : IsAffine (A * B) := by
  obtain ⟨a0, a1, a2, a3⟩ := hA
  obtain ⟨b0, b1, b2, b3⟩ := hB
  refine ⟨?_, ?_, ?_, ?_⟩ <;>
    simp [Matrix.mul_apply, Fin.sum_univ_four, a0, a1, a2, a3, b0, b1, b2, b3]

theorem isAffine_translate (t : Vec3) : IsAffine (translate t) := by
  refine ⟨?_, ?_, ?_, ?_⟩ <;>
    simp [translate, Matrix.vecHead, Matrix.vecTail]

theorem isAffine_rotateMat (angle : ℝ) (a : Vec3) : IsAffine (rotateMat angle a) := by
  refine ⟨?_, ?_, ?_, ?_⟩ <;>
    simp [rotateMat, Matrix.vecHead, Matrix.vecTail]

theorem isAffine_basisMat (s u f : Vec3) : IsAffine (basisMat s u f) := by
  refine ⟨?_, ?_, ?_, ?_⟩ <;>
    simp [basisMat, Matrix.vecHead, Matrix.vecTail]

theorem isAffine_basisMat_transpose (s u f : Vec3) : IsAffine (basisMat s u f)ᵀ := by
  refine ⟨?_, ?_, ?_, ?_⟩ <;>
    simp [basisMat, Matrix.vecHead, Matrix.vecTail]

theorem rigid_mul {A B : Mat4} (hA : Rigid A) (hB : Rigid B) (haff : IsAffine B) :
    Rigid (A * B) := by
  intro p q
  rw [tp_mul A B haff, tp_mul A B haff]
  rw [hA, hB]

theorem tp_translate (t : Vec3) (v : Vec3) : tp (translate t) v = v + t := by
  ext <;> simp [tp, translate, Vec3.add_def, Matrix.vecHead, Matrix.vecTail]

theorem rigid_translate (t : Vec3) : Rigid (translate t) := by
  intro p q
  simp only [distSq, tp_translate, lenSq, dot, Vec3.add_def, Vec3.sub_def]
  ring

/-- The Rodrigues form of the axis-angle rotation matrix. -/
theorem rodrigues (angle : ℝ) (a v : Vec3) :
    tp (rotateMat angle a) v =
      smul (Real.cos angle) v + smul (Real.sin angle) (cross a v) +
        smul ((1 - Real.cos angle) * dot a v) a := by
  ext <;>
    simp [tp, rotateMat, smul, cross, dot, Vec3.add_def, Matrix.vecHead, Matrix.vecTail] <;>
    ring

/-- An axis-angle rotation about a unit axis preserves the dot product. -/
theorem rot_dot (angle : ℝ) (a v w : Vec3) (ha : dot a a = 1) :
    dot (tp (rotateMat angle a) v) (tp (rotateMat angle a) w) = dot v w := by
  have hsc : Real.sin angle ^ 2 + Real.cos angle ^ 2 = 1 := Real.sin_sq_add_cos_sq angle
  rw [rodrigues, rodrigues]
  simp only [dot, smul, cross, Vec3.add_def] at *
  linear_combination
    (Real.sin angle ^ 2 * (v.x * w.x + v.y * w.y + v.z * w.z) +
      (1 - Real.cos angle) ^ 2 * (a.x * v.x + a.y * v.y + a.z * v.z) *
        (a.x * w.x + a.y * w.y + a.z * w.z)) * ha +
    ((v.x * w.x + v.y * w.y + v.z * w.z) -
      (a.x * v.x + a.y * v.y + a.z * v.z) * (a.x * w.x + a.y * w.y + a.z * w.z)) * hsc

theorem rigid_rotateMat (angle : ℝ) (a : Vec3) (ha : dot a a = 1) :
    Rigid (rotateMat angle a) := by
  intro p q
  have hlin : tp (rotateMat angle a) p - tp (rotateMat angle a) q =
      tp (rotateMat angle a) (p - q) := by
    ext <;>
      simp [tp, rotateMat, Vec3.sub_def, Matrix.vecHead, Matrix.vecTail] <;> ring
  simp only [distSq, lenSq, hlin]
  exact rot_dot angle a (p - q) (p - q) ha

/-- Completeness of an orthonormal pair extended by its cross product: the
three projections recover the squared norm. -/
theorem gram_complete (s f d : Vec3) (hss : lenSq s = 1) (hff : lenSq f = 1)
    (hsf : dot s f = 0) :
    dot s d ^ 2 + dot (cross s f) d ^ 2 + dot f d ^ 2 = lenSq d := by
  simp only [lenSq, dot, cross] at *
  linear_combination
    ((f.x * f.x + f.y * f.y + f.z * f.z) * (d.x * d.x + d.y * d.y + d.z * d.z) -
      (f.x * d.x + f.y * d.y + f.z * d.z) ^ 2) * hss +
    ((d.x * d.x + d.y * d.y + d.z * d.z) - (s.x * d.x + s.y * d.y + s.z * d.z) ^ 2) * hff +
    (2 * (f.x * d.x + f.y * d.y + f.z * d.z) * (s.x * d.x + s.y * d.y + s.z * d.z) -
      (d.x * d.x + d.y * d.y + d.z * d.z) * (s.x * f.x + s.y * f.y + s.z * f.z)) * hsf

/-- The basis matrix with rows `s`, `s x f`, `-f` of an orthonormal pair is
rigid. -/
theorem rigid_basisMat (s f : Vec3) (hss : lenSq s = 1) (hff : lenSq f = 1)
    (hsf : dot s f = 0) : Rigid (basisMat s (cross s f) f) := by
  intro p q
  have hlin : tp (basisMat s (cross s f) f) p - tp (basisMat s (cross s f) f) q =
      ⟨dot s (p - q), dot (cross s f) (p - q), -(dot f (p - q))⟩ := by
    ext <;>
      simp [tp, basisMat, dot, cross, Vec3.sub_def, Matrix.vecHead, Matrix.vecTail] <;> ring
  rw [distSq, hlin, lenSq_mk]
  have h := gram_complete s f (p - q) hss hff hsf
  rw [distSq]
  linear_combination h

/-- The transpose of any orthonormal basis matrix is rigid. -/
theorem rigid_basisMat_transpose (s u f : Vec3) (hss : lenSq s = 1) (huu : lenSq u = 1)
    (hff : lenSq f = 1) (hsu : dot s u = 0) (hsf : dot s f = 0) (huf : dot u f = 0) :
    Rigid (basisMat s u f)ᵀ := by
  intro p q
  have hlin : tp (basisMat s u f)ᵀ p - tp (basisMat s u f)ᵀ q =
      ⟨s.x * (p.x - q.x) + u.x * (p.y - q.y) - f.x * (p.z - q.z),
       s.y * (p.x - q.x) + u.y * (p.y - q.y) - f.y * (p.z - q.z),
       s.z * (p.x - q.x) + u.z * (p.y - q.y) - f.z * (p.z - q.z)⟩ := by
    ext <;>
      simp [tp, basisMat, Vec3.sub_def, Matrix.vecHead, Matrix.vecTail] <;> ring
  rw [distSq, hlin, lenSq_mk, distSq]
  simp only [lenSq, dot] at hss huu hff hsu hsf huf ⊢
  simp only [Vec3.sub_def]
  linear_combination
    ((p.x - q.x) ^ 2) * hss + ((p.y - q.y) ^ 2) * huu + ((p.z - q.z) ^ 2) * hff +
    (2 * (p.x - q.x) * (p.y - q.y)) * hsu - (2 * (p.x - q.x) * (p.z - q.z)) * hsf -
    (2 * (p.y - q.y) * (p.z - q.z)) * huf

set_option maxHeartbeats 800000 in
theorem translate_mul_translate (a b : Vec3) :
    translate a * translate b = translate (a + b) := by
  ext i j
  fin_cases i <;> fin_cases j <;>
    simp [translate, Matrix.mul_apply, Fin.sum_univ_four, Vec3.add_def,
      Matrix.vecHead, Matrix.vecTail] <;> ring

set_option maxHeartbeats 800000 in
theorem translate_zero_eq_one : translate 0 = (1 : Mat4) := by
  ext i j
  fin_cases i <;> fin_cases j <;>
    simp [translate, Vec3.zero_def, Matrix.one_apply, Matrix.vecHead, Matrix.vecTail]

theorem neg_add_cancel_vec (a : Vec3) : -a + a = 0 := by
  ext <;> simp [Vec3.neg_def, Vec3.add_def, Vec3.zero_def]

theorem add_neg_cancel_vec (a : Vec3) : a + -a = 0 := by
  ext <;> simp [Vec3.neg_def, Vec3.add_def, Vec3.zero_def]

set_option maxHeartbeats 1600000 in
/-- Rows-orthonormality of the basis matrix, as a matrix identity. -/
theorem basisMat_mul_transpose (s u f : Vec3) (hss : lenSq s = 1) (huu : lenSq u = 1)
    (hff : lenSq f = 1) (hsu : dot s u = 0) (hsf : dot s f = 0) (huf : dot u f = 0) :
    basisMat s u f * (basisMat s u f)ᵀ = 1 := by
  simp only [lenSq, dot] at hss huu hff hsu hsf huf
  ext i j
  fin_cases i <;> fin_cases j <;>
    simp [basisMat, Matrix.mul_apply, Fin.sum_univ_four, Matrix.one_apply,
      Matrix.vecHead, Matrix.vecTail] <;>
    first
      | linear_combination hss
      | linear_combination huu
      | linear_combination hff
      | linear_combination hsu
      | linear_combination hsf
      | linear_combination huf
      | linear_combination (-1 : ℝ) * hsu
      | linear_combination (-1 : ℝ) * hsf
      | linear_combination (-1 : ℝ) * huf

end VsgMath

namespace VsgMath

open Matrix

theorem add_sub_cancel_vec (a b : Vec3) : (a + b) - a = b := by
  ext <;> simp [Vec3.add_def, Vec3.sub_def]

/-- The camera matrix `vsg::lookAt` builds is a rigid affine map, and so is
its inverse, under the nondegeneracy of the camera state: the eye and
center are distinct and the forward direction is not parallel to the up
direction. -/
theorem lookAtMat_package (eye center up : Vec3)
    (h1 : lenSq (center - eye) ≠ 0)
    (h3 : lenSq (cross (normalize (center - eye)) (normalize up)) ≠ 0) :
    Rigid (lookAtMat eye center up) ∧ IsAffine (lookAtMat eye center up) ∧
      Rigid (inverseM (lookAtMat eye center up)) ∧
      IsAffine (inverseM (lookAtMat eye center up)) := by
  have hlook : lookAtMat eye center up =
      basisMat (normalize (cross (normalize (center - eye)) (normalize up)))
        (normalize (cross (normalize (cross (normalize (center - eye)) (normalize up)))
          (normalize (center - eye))))
        (normalize (center - eye)) * translate (-eye) := rfl
  set f := normalize (center - eye) with hfdef
  set s := normalize (cross f (normalize up)) with hsdef
  set u := normalize (cross s f) with hudef
  have hff : lenSq f = 1 := lenSq_normalize h1
  have hss : lenSq s = 1 := lenSq_normalize h3
  have hsf : dot s f = 0 := by
    rw [hsdef, normalize, dot_smul_left, dot_cross_left, mul_zero]
  have hw : lenSq (cross s f) = 1 := by
    rw [lenSq_cross, hss, hff, hsf]; ring
  have hu : u = cross s f := by
    rw [hudef]; exact normalize_eq_self_of_lenSq_one hw
  have huu : lenSq u = 1 := by rw [hu]; exact hw
  have hsu : dot s u = 0 := by rw [hu, dot_comm]; exact dot_cross_left s f
  have huf : dot u f = 0 := by rw [hu]; exact dot_cross_right s f
  have hBBt : basisMat s u f * (basisMat s u f)ᵀ = 1 :=
    basisMat_mul_transpose s u f hss huu hff hsu hsf huf
  have hrigidB : Rigid (basisMat s u f) := by
    rw [hu]; exact rigid_basisMat s f hss hff hsf
  have hrigidBt : Rigid (basisMat s u f)ᵀ :=
    rigid_basisMat_transpose s u f hss huu hff hsu hsf huf
  have hinv : inverseM (basisMat s u f * translate (-eye)) =
      translate eye * (basisMat s u f)ᵀ := by
    apply Matrix.inv_eq_right_inv
    rw [mul_assoc, ← mul_assoc (translate (-eye)) (translate eye),
      translate_mul_translate, neg_add_cancel_vec, translate_zero_eq_one, one_mul, hBBt]
  rw [hlook]
  refine ⟨?_, ?_, ?_, ?_⟩
  · exact rigid_mul hrigidB (rigid_translate _) (isAffine_translate _)
  · exact isAffine_mul (isAffine_basisMat _ _ _) (isAffine_translate _)
  · rw [hinv]
    exact rigid_mul (rigid_translate _) hrigidBt (isAffine_basisMat_transpose _ _ _)
  · rw [hinv]
    exact isAffine_mul (isAffine_translate _) (isAffine_basisMat_transpose _ _ _)

/-- A rotation about a point conjugated through a rigid affine view matrix is
rigid. -/
theorem conj_rigid (lv R : Mat4) (ces : Vec3) (hlv : Rigid lv) (halv : IsAffine lv)
    (hinvr : Rigid (inverseM lv)) (hR : Rigid R) (haR : IsAffine R) :
    Rigid (inverseM lv * translate ces * R * translate (-ces) * lv) := by
  have h1 : Rigid (inverseM lv * translate ces) :=
    rigid_mul hinvr (rigid_translate _) (isAffine_translate _)
  have h2 : Rigid (inverseM lv * translate ces * R) := rigid_mul h1 hR haR
  have h3 : Rigid (inverseM lv * translate ces * R * translate (-ces)) :=
    rigid_mul h2 (rigid_translate _) (isAffine_translate _)
  exact rigid_mul h3 hlv halv

end VsgMath

/-! ### Trackball claims -/

namespace GlobeTrackball

open VsgMath

/-- Claim C6: for every angle and unit axis, `GlobeTrackball::rotate` applies
a rigid motion (the axis-angle rotation about the look-at center conjugated
through the view matrix) to eye, center and up, so before the final
clamp-to-globe step the distance between eye and center is unchanged and the
up vector remains a unit vector.  The camera state is assumed nondegenerate,
as the view matrix construction requires: eye and center distinct, up
nonzero, and the forward direction not parallel to up. -/
theorem C6_rotate_rigid (la : LookAt) (angle : ℝ) (axis : Vec3)
    (haxis : dot axis axis = 1)
    (h1 : lenSq (la.center - la.eye) ≠ 0)
    (hup : lenSq la.up ≠ 0)
    (h3 : lenSq (cross (normalize (la.center - la.eye)) (normalize la.up)) ≠ 0) :
    VsgMath.length ((rotateTransformed la angle axis).eye -
        (rotateTransformed la angle axis).center) =
      VsgMath.length (la.eye - la.center) ∧
    VsgMath.length (rotateTransformed la angle axis).up = 1 := by
  obtain ⟨hrlv, halv, hrinv, hainv⟩ := lookAtMat_package la.eye la.center la.up h1 h3
  set lv := lookAtMat la.eye la.center la.up with hlv
  set M := inverseM lv * translate (tp lv la.center) * rotateMat angle axis *
    translate (-(tp lv la.center)) * lv with hM
  have hrigidM : Rigid M :=
    conj_rigid lv (rotateMat angle axis) (tp lv la.center) hrlv halv hrinv
      (rigid_rotateMat angle axis haxis) (isAffine_rotateMat angle axis)
  have heye : (rotateTransformed la angle axis).eye = tp M la.eye := rfl
  have hcenter : (rotateTransformed la angle axis).center = tp M la.center := rfl
  have hupeq : (rotateTransformed la angle axis).up =
      normalize (tp M (la.eye + la.up) - tp M la.eye) := rfl
  constructor
  · rw [heye, hcenter]
    show Real.sqrt (distSq (tp M la.eye) (tp M la.center)) =
      Real.sqrt (distSq la.eye la.center)
    exact congrArg Real.sqrt (hrigidM la.eye la.center)
  · rw [hupeq]
    apply length_normalize
    have hd : lenSq (tp M (la.eye + la.up) - tp M la.eye) =
        distSq (tp M (la.eye + la.up)) (tp M la.eye) := rfl
    rw [hd, hrigidM (la.eye + la.up) la.eye]
    show lenSq ((la.eye + la.up) - la.eye) ≠ 0
    rw [add_sub_cancel_vec]
    exact hup

end GlobeTrackball

namespace GlobeTrackball

open VsgMath

theorem C6_rotate_rigid_witness :
    VsgMath.length ((rotateTransformed sampleLookAt 1 sampleAxis).eye -
        (rotateTransformed sampleLookAt 1 sampleAxis).center) =
      VsgMath.length (sampleLookAt.eye - sampleLookAt.center) ∧
    VsgMath.length (rotateTransformed sampleLookAt 1 sampleAxis).up = 1 := by
  have h4 : Real.sqrt 4 = 2 := by
    rw [show (4 : ℝ) = 2 ^ 2 by norm_num, Real.sqrt_sq (by norm_num : (0 : ℝ) ≤ 2)]
  refine C6_rotate_rigid sampleLookAt 1 sampleAxis ?_ ?_ ?_ ?_
  · norm_num [VsgMath.dot, sampleAxis]
  · norm_num [VsgMath.lenSq, VsgMath.dot, sampleLookAt, VsgMath.Vec3.sub_def]
  · norm_num [VsgMath.lenSq, VsgMath.dot, sampleLookAt]
  · norm_num [VsgMath.lenSq, VsgMath.dot, VsgMath.cross, VsgMath.normalize,
      VsgMath.length, VsgMath.smul, sampleLookAt, VsgMath.Vec3.sub_def, h4, Real.sqrt_one]

end GlobeTrackball

namespace GlobeTrackball

open VsgMath

/-- `clampToGlobe` with an ellipsoid model present always establishes the
clamping invariant, whatever the incoming state: the center ends at altitude
`0` and the eye at altitude at least `1`. -/
theorem clampToGlobe_above (em : EllipsoidModel) (la : LookAt) :
    aboveGlobe em (clampToGlobe (some em) la) := by
  rw [clampToGlobe, aboveGlobe]
  simp only
  split_ifs with h
  · constructor
    · exact em.alt_roundtrip _
    · rw [em.alt_roundtrip]
  · constructor
    · exact em.alt_roundtrip _
    · exact not_lt.mp h

/-- Claim C1: with an ellipsoid model present, each camera-moving operation
(rotate, pan, zoom) keeps the camera above the ellipsoid: starting from a
state satisfying the clamping invariant, after the operation the look-at
center is at altitude `0` on the surface and the eye's altitude is at least
the minimum altitude `1.0` (rotate and zoom clamp unconditionally; pan
either leaves the state unchanged, when the pan-induced rotation angle is
zero, or clamps). -/
theorem C1_operations_stay_above (em : EllipsoidModel) (la : LookAt) (angle ratio : ℝ)
    (axis : Vec3) (delta : ℝ × ℝ) (h : aboveGlobe em la) :
    aboveGlobe em (rotate (some em) la angle axis) ∧
      aboveGlobe em (pan (some em) la delta) ∧
      aboveGlobe em (zoom (some em) la ratio) := by
  refine ⟨clampToGlobe_above em _, ?_, clampToGlobe_above em _⟩
  rw [pan]
  simp only
  split_ifs with hangle
  · exact h
  · exact clampToGlobe_above em _

theorem C1_operations_stay_above_witness :
    aboveGlobe flatModel (rotate (some flatModel) sampleLookAt 1 sampleAxis) ∧
      aboveGlobe flatModel (pan (some flatModel) sampleLookAt (1, 1)) ∧
      aboveGlobe flatModel (zoom (some flatModel) sampleLookAt 1) :=
  C1_operations_stay_above flatModel sampleLookAt 1 1 sampleAxis (1, 1)
    (by constructor <;> norm_num [aboveGlobe, flatModel, sampleLookAt])

end GlobeTrackball


namespace GlobeTrackball

open VsgMath

/-- Claim C10: with no ellipsoid model, `clampToGlobe` returns immediately
and leaves the `LookAt` unchanged; consequently pan translates eye and
center by the same vector (their difference is preserved, up unchanged) and
zoom moves only the eye (along the look vector; center and up unchanged). -/
theorem C10_no_ellipsoid_frame (la : LookAt) (delta : ℝ × ℝ) (ratio : ℝ) :
    clampToGlobe none la = la ∧
    (∃ t, (pan none la delta).eye = la.eye + t ∧ (pan none la delta).center = la.center + t) ∧
    (pan none la delta).center - (pan none la delta).eye = la.center - la.eye ∧
    (pan none la delta).up = la.up ∧
    (zoom none la ratio).eye = la.eye + smul ratio (la.center - la.eye) ∧
    (zoom none la ratio).center = la.center ∧
    (zoom none la ratio).up = la.up := by
  refine ⟨rfl, ⟨_, rfl, rfl⟩, ?_, rfl, rfl, rfl, rfl⟩
  show (la.center + _) - (la.eye + _) = la.center - la.eye
  ext <;> simp [Vec3.add_def, Vec3.sub_def]

/-- Claim C5: for a key press of the configured home key that is not already
handled, while the last pointer event was within the render area, `apply`
marks the event handled and restores the camera's `LookAt` to the home
values the constructor saved — the camera's `LookAt` clamped to the globe at
construction time.  The camera's view matrix is assumed to (still) be a
`LookAt`, as the restore requires. -/
theorem C5_home_key_restores (cam : Camera) (em? : Option EllipsoidModel) (la0 : LookAt)
    (hcam : cam.viewMatrix = .lookAtVM la0)
    (tb : Trackball) (curr : LookAt)
    (hhome : tb.homeLookAt = (mkGlobeTrackball cam em?).homeLookAt)
    (hvm : tb.camera.viewMatrix = .lookAtVM curr)
    (e : KeyPressEvent) (he : e.handled = false)
    (hin : tb.lastPointerEventWithinRenderArea = true)
    (hkey : e.keyBase = tb.homeKey) :
    (applyKeyPress tb e).1.handled = true ∧
    (applyKeyPress tb e).2.camera.viewMatrix = .lookAtVM (clampToGlobe em? la0) := by
  rw [mkGlobeTrackball, hcam] at hhome
  simp only at hhome
  rw [applyKeyPress]
  rw [he, hin, hkey]
  simp only [Bool.false_or, Bool.not_true, Bool.false_eq_true, if_false, if_true, ite_true,
    ite_false, reduceIte]
  rw [hvm, hhome]
  exact ⟨rfl, rfl⟩

end GlobeTrackball

namespace GlobeTrackball

theorem C5_home_key_restores_witness :
    (applyKeyPress sampleTrackball sampleKeyPress).1.handled = true ∧
    (applyKeyPress sampleTrackball sampleKeyPress).2.camera.viewMatrix =
      .lookAtVM (clampToGlobe none sampleLookAt) :=
  C5_home_key_restores sampleCamera none sampleLookAt rfl sampleTrackball sampleLookAt
    rfl rfl sampleKeyPress rfl rfl rfl

end GlobeTrackball

namespace GlobeTrackball

/-- Claim C8, counterexample: `ndc` is not free of divisions by zero — the
`aspectRatio = width / height` computation is performed unguarded, so with a
render area of height `0` (and any width) the function divides by zero. -/
theorem C8_ndc_division_counterexample :
    ndcChecked ⟨⟨0, 0⟩, ⟨2, 0⟩⟩ ⟨1, 1⟩ = none := by
  simp [ndcChecked, safeDiv]

/-- Claim C8, amended: the per-component divisions of `ndc` are guarded —
when the width is zero the x component is `0.0` and when the height is zero
the y component is `0.0` — but the aspect-ratio division `width / height` is
unguarded; no division by zero is performed exactly when the height is
nonzero. -/
theorem C8_ndc_guards_amended (renderArea : RenderArea) (event : PointerEventData) :
    (renderArea.extent.width = 0 → (ndc renderArea event).1 = 0) ∧
    (renderArea.extent.height = 0 → (ndc renderArea event).2 = 0) ∧
    (renderArea.extent.height ≠ 0 →
      ndcChecked renderArea event = some (ndc renderArea event)) := by
  refine ⟨?_, ?_, ?_⟩
  · intro h0
    simp [ndc, h0]
  · intro h0
    simp [ndc, h0]
  · intro hne
    have hq : ((renderArea.extent.height : ℚ)) ≠ 0 := by
      exact_mod_cast hne
    by_cases hw : 0 < renderArea.extent.width
    · have hwq : ((renderArea.extent.width : ℚ)) ≠ 0 := by
        exact_mod_cast Nat.pos_iff_ne_zero.mp hw
      simp [ndcChecked, ndc, safeDiv, hq, hwq, hw, Nat.pos_of_ne_zero hne]
    · simp [ndcChecked, ndc, safeDiv, hq, hw, Nat.pos_of_ne_zero hne]

theorem C8_ndc_guards_witness :
    (ndc ⟨⟨0, 0⟩, ⟨0, 5⟩⟩ ⟨3, 4⟩).1 = 0 ∧
    ndcChecked ⟨⟨0, 0⟩, ⟨4, 5⟩⟩ ⟨3, 4⟩ = some (ndc ⟨⟨0, 0⟩, ⟨4, 5⟩⟩ ⟨3, 4⟩) :=
  ⟨(C8_ndc_guards_amended ⟨⟨0, 0⟩, ⟨0, 5⟩⟩ ⟨3, 4⟩).1 rfl,
   (C8_ndc_guards_amended ⟨⟨0, 0⟩, ⟨4, 5⟩⟩ ⟨3, 4⟩).2.2 (by norm_num)⟩

end GlobeTrackball

/-! ### Builder claims -/

namespace Builder

/-- Claim C4: calling `createBox` twice with equal `GeometryInfo` values
makes the second call return exactly the node the first call stored in the
`_boxes` cache, keyed by the geometry descriptor: the cache slot holds the
first call's node, and the second call returns that very node and changes
nothing (no new build, no new allocation). -/
theorem C4_box_cached_reuse (s : BuilderState) (info : GeometryInfo) :
    lookupAssoc (createBox s info).2.boxes info = some (createBox s info).1 ∧
    createBox (createBox s info).2 info = createBox s info := by
  cases h : lookupAssoc s.boxes info with
  | some n => simp [createBox, h]
  | none => simp [createBox, h, lookupAssoc]

/-- Claim C2, counterexample: at a concrete geometry descriptor,
`createSphere` returns exactly what `createBox` returns — the axis-aligned
box mesh, with the same allocation — so its vertex/index buffers do not
describe a sphere shape distinct from the box mesh. -/
theorem C2_sphere_counterexample :
    createSphere (freshState .DRAW_INDEXED_COMMANDS) sampleInfo =
      createBox (freshState .DRAW_INDEXED_COMMANDS) sampleInfo := rfl

/-- Claim C2, amended: `createSphere` is a placeholder that delegates to
`createBox`: for every state and `GeometryInfo` it returns the box mesh
subgraph `createBox` builds (or has cached), not a sphere-specific mesh. -/
theorem C2_sphere_delegates_to_box (s : BuilderState) (info : GeometryInfo) :
    createSphere s info = createBox s info := rfl

/-- Claim C3 (code bug): `createQuad` looks subgraphs up in the `_boxes`
cache but never stores what it builds (the assignment `subgraph =
scenegraph` present in `createBox` is missing), so after a first
`createQuad` on a fresh Builder the cache is still empty and a second call
with the equal descriptor builds a brand-new subgraph (a different
allocation) instead of returning the cached one. -/
theorem C3_quad_cache_bug :
    (createQuad (freshState .DRAW_INDEXED_COMMANDS) sampleInfo).2.boxes = [] ∧
    (createQuad ((createQuad (freshState .DRAW_INDEXED_COMMANDS) sampleInfo).2)
        sampleInfo).1.id ≠
      (createQuad (freshState .DRAW_INDEXED_COMMANDS) sampleInfo).1.id := by
  constructor
  · rfl
  · decide

end Builder

namespace Builder

theorem Vec3q.ext_components {a b : Vec3q} (hx : a.x = b.x) (hy : a.y = b.y)
    (hz : a.z = b.z) : a = b := by
  cases a; cases b; simp_all

/-- Claim C7: on a cache miss, `createBox` builds a vertex buffer of exactly
24 vertices — every one an axis-aligned box corner at `info.position` with
extents `info.dimensions`, all 8 corners occurring, listed 4 per face for 6
faces — and an index buffer of exactly 36 indices, each strictly below 24,
and issues a single `DrawIndexed` command whose index count is 36. -/
theorem C7_box_mesh_shape (s : BuilderState) (info : GeometryInfo)
    (h : lookupAssoc s.boxes info = none) :
    (createBox s info).1.child = Child.commands
      [.bindVertexBuffers 0 ⟨boxVertices info, boxColors, boxTexcoords⟩,
       .bindIndexBuffer boxIndices,
       .drawIndexed boxIndices.length 1 0 0 0] ∧
    (boxVertices info).length = 24 ∧
    (∀ v ∈ boxVertices info, ∃ a b c, v = corner info a b c) ∧
    (∀ a b c, corner info a b c ∈ boxVertices info) ∧
    boxIndices.length = 36 ∧
    (∀ i ∈ boxIndices, i < 24) ∧
    drawIndexedCounts (createBox s info).1.child = [36] := by
  have hchild : (createBox s info).1.child = Child.commands
      [.bindVertexBuffers 0 ⟨boxVertices info, boxColors, boxTexcoords⟩,
       .bindIndexBuffer boxIndices,
       .drawIndexed boxIndices.length 1 0 0 0] := by
    simp [createBox, h, buildBoxNode]
  refine ⟨hchild, rfl, ?_, ?_, rfl, by decide, ?_⟩
  · intro v hv
    fin_cases hv <;>
      first
        | (refine ⟨false, false, false, ?_⟩
           apply Vec3q.ext_components <;> simp [corner, v000]
           done)
        | (refine ⟨true, false, false, ?_⟩
           apply Vec3q.ext_components <;> simp [corner, v100, Vec3q.addq_def]
           done)
        | (refine ⟨true, true, false, ?_⟩
           apply Vec3q.ext_components <;> simp [corner, v110, Vec3q.addq_def]
           done)
        | (refine ⟨false, true, false, ?_⟩
           apply Vec3q.ext_components <;> simp [corner, v010, Vec3q.addq_def]
           done)
        | (refine ⟨false, false, true, ?_⟩
           apply Vec3q.ext_components <;> simp [corner, v001, Vec3q.addq_def]
           done)
        | (refine ⟨true, false, true, ?_⟩
           apply Vec3q.ext_components <;> simp [corner, v101, Vec3q.addq_def]
           done)
        | (refine ⟨true, true, true, ?_⟩
           apply Vec3q.ext_components <;> simp [corner, v111, Vec3q.addq_def]
           done)
        | (refine ⟨false, true, true, ?_⟩
           apply Vec3q.ext_components <;> simp [corner, v011, Vec3q.addq_def]
           done)
  · intro a b c
    cases a <;> cases b <;> cases c <;>
      simp [corner, boxVertices, v000, v100, v110, v010, v001, v101, v111, v011,
        Vec3q.addq_def]
  · rw [hchild]
    rfl

theorem C7_box_mesh_shape_witness :
    (boxVertices sampleInfo).length = 24 ∧ boxIndices.length = 36 :=
  ⟨(C7_box_mesh_shape (freshState .DRAW_INDEXED_COMMANDS) sampleInfo rfl).2.1,
   (C7_box_mesh_shape (freshState .DRAW_INDEXED_COMMANDS) sampleInfo rfl).2.2.2.2.1⟩

end Builder

namespace Builder

/-- Claim C9: in `createQuad`, the `DRAW_COMMANDS` path is equivalent to the
`DRAW_INDEXED_COMMANDS` path: for every `i` below the 6 indices, the
expanded vertex, colour and texcoord arrays at position `i` equal the base
arrays at position `indices[i]`, so on a cache miss the non-indexed `Draw`
emits exactly the same vertex, colour and texcoord streams as the indexed
`DrawIndexed`. -/
theorem C9_quad_draw_paths_agree (s : BuilderState) (info : GeometryInfo)
    (h : lookupAssoc s.boxes info = none) :
    vertexStream ((createQuad { s with geometryType := .DRAW_COMMANDS } info).1.child) =
      vertexStream ((createQuad { s with geometryType := .DRAW_INDEXED_COMMANDS } info).1.child) ∧
    colorStream ((createQuad { s with geometryType := .DRAW_COMMANDS } info).1.child) =
      colorStream ((createQuad { s with geometryType := .DRAW_INDEXED_COMMANDS } info).1.child) ∧
    texcoordStream ((createQuad { s with geometryType := .DRAW_COMMANDS } info).1.child) =
      texcoordStream ((createQuad { s with geometryType := .DRAW_INDEXED_COMMANDS } info).1.child) ∧
    (∀ i, i < 6 →
      (expandedVertices info).getD i default =
        (quadVertices info).getD (quadIndices.getD i 0) default ∧
      expandedColors.getD i default = quadColors.getD (quadIndices.getD i 0) default ∧
      expandedTexcoords.getD i default = quadTexcoords.getD (quadIndices.getD i 0) default) := by
  have hD : (createQuad { s with geometryType := .DRAW_COMMANDS } info).1.child =
      quadChild .DRAW_COMMANDS info := by
    simp [createQuad, h]
  have hI : (createQuad { s with geometryType := .DRAW_INDEXED_COMMANDS } info).1.child =
      quadChild .DRAW_INDEXED_COMMANDS info := by
    simp [createQuad, h]
  rw [hD, hI]
  refine ⟨rfl, rfl, rfl, ?_⟩
  intro i hi
  interval_cases i <;> exact ⟨rfl, rfl, rfl⟩

theorem C9_quad_draw_paths_agree_witness :
    vertexStream ((createQuad { freshState .DRAW_COMMANDS with
          geometryType := GeometryType.DRAW_COMMANDS } sampleInfo).1.child) =
      vertexStream ((createQuad { freshState .DRAW_COMMANDS with
          geometryType := GeometryType.DRAW_INDEXED_COMMANDS } sampleInfo).1.child) :=
  (C9_quad_draw_paths_agree (freshState .DRAW_COMMANDS) sampleInfo rfl).1

end Builder
